import Mathlib

/-!
Verification development for the Orbit crisis-management repository.

The development embeds, as executable Lean definitions:
* the Risk Score agent's dependency-wait logic from the technical
  implementation guide (class `RiskScoreAgent`: `waiting_for` flags,
  `collected_data`, `handle_event`, and the reset performed by
  `calculate_risk_score`);
* the status vocabularies of the gateway frontend (`CrisisStatus` in
  `api/orbit.ts`, `Agent` in `data/mockData.ts`, and the
  `agent_progress` mapping and trigger-button gating in `App.tsx`);
* the dependency-resolution orchestrator described by the specification
  (dependency graph, crisis-instance tracker, eligibility computation,
  event step function), instantiated at the six-agent topology from the
  PRD's agent catalogue.

All definitions come first; the theorems settling the claims follow.
-/

/-- Bus event as consumed by the agent handlers in the implementation
guide: `event_type` selects the handler branch, `crisis_id` and the rest
of the payload are carried along inside the stored event. -/
structure AgentEvent where
  event_type : String
  crisis_id : String
  payload : String
  deriving DecidableEq, Repr

/-- Dependency-wait state of `RiskScoreAgent`: the `waiting_for`
dictionary (`fact_check` and `sentiment` flags) together with the
`collected_data` dictionary (`fact_data` and `sentiment_data` entries).
It is a single record of the agent object, not indexed by crisis id. -/
structure RiskScoreState where
  waiting_fact_check : Bool
  waiting_sentiment : Bool
  fact_data : Option AgentEvent
  sentiment_data : Option AgentEvent
  deriving DecidableEq, Repr

/-- The state installed by `RiskScoreAgent.__init__` and re-installed by
`calculate_risk_score` ("Reset for next crisis"). -/
def riskInitState : RiskScoreState :=
  ⟨false, false, none, none⟩

/-- The flag/data update performed at the top of
`RiskScoreAgent.handle_event`: a `fact_check_complete` event sets the
`fact_check` flag and stores the event, a `sentiment_analysis_complete`
event sets the `sentiment` flag and stores the event, anything else
leaves the state alone. -/
def riskUpdate (s : RiskScoreState) (e : AgentEvent) : RiskScoreState :=
  if e.event_type = "fact_check_complete" then
    { s with waiting_fact_check := true, fact_data := some e }
  else if e.event_type = "sentiment_analysis_complete" then
    { s with waiting_sentiment := true, sentiment_data := some e }
  else s

/-- One call of `RiskScoreAgent.handle_event`: update the wait state,
then, if all `waiting_for` values are set, run `calculate_risk_score`
(which publishes the completion — the returned `Bool` — and resets the
state to `riskInitState`). -/
def riskHandleEvent (s : RiskScoreState) (e : AgentEvent) : RiskScoreState × Bool :=
  if (riskUpdate s e).waiting_fact_check && (riskUpdate s e).waiting_sentiment then
    (riskInitState, true)
  else (riskUpdate s e, false)

/-- Deliver a list of events to the agent in order, returning the final
state and the per-event dispatch (publication) flags. -/
def riskProcess : RiskScoreState → List AgentEvent → RiskScoreState × List Bool
  | s, [] => (s, [])
  | s, e :: es =>
    ((riskProcess (riskHandleEvent s e).1 es).1,
     (riskHandleEvent s e).2 :: (riskProcess (riskHandleEvent s e).1 es).2)

/-- Dispatch flags produced by a trace delivered to a fresh agent. -/
def riskDispatches (es : List AgentEvent) : List Bool :=
  (riskProcess riskInitState es).2

/-- Final wait state after a trace delivered to a fresh agent. -/
def riskFinal (es : List AgentEvent) : RiskScoreState :=
  (riskProcess riskInitState es).1

/-- Number of risk-score publications over a trace. -/
def riskCount (es : List AgentEvent) : Nat :=
  (riskDispatches es).count true

/-- Classification of an event by the two `event_type` strings the risk
agent's handler tests for. -/
inductive DepKind where
  | factKind
  | sentimentKind
  | otherKind
  deriving DecidableEq, Repr

/-- Kind of an event, per the string tests in `handle_event`. -/
def kindOf (e : AgentEvent) : DepKind :=
  if e.event_type = "fact_check_complete" then .factKind
  else if e.event_type = "sentiment_analysis_complete" then .sentimentKind
  else .otherKind

/-- Reference fan-in rule: an `OnAll` trigger over the two dependency
kinds, evaluated against the kinds received since the last firing, with
the received-set cleared at each firing.  It consumes only the sequence
of event kinds — no crisis ids, no payloads. -/
def ruleFires : Bool → Bool → List DepKind → List Bool
  | _, _, [] => []
  | f, s, k :: ks =>
    if (f || decide (k = DepKind.factKind)) && (s || decide (k = DepKind.sentimentKind)) then
      true :: ruleFires false false ks
    else
      false :: ruleFires (f || decide (k = DepKind.factKind)) (s || decide (k = DepKind.sentimentKind)) ks

/-- A `fact.complete` bus event for the given crisis id. -/
def factEvt (c : String) : AgentEvent :=
  ⟨"fact_check_complete", c, "fact_result"⟩

/-- A `sentiment.complete` bus event for the given crisis id. -/
def sentimentEvt (c : String) : AgentEvent :=
  ⟨"sentiment_analysis_complete", c, "sentiment_result"⟩

/-- Event types recorded for one crisis id within a trace. -/
def recordedTypesFor (es : List AgentEvent) (c : String) : List String :=
  (es.filter (fun e => decide (e.crisis_id = c))).map AgentEvent.event_type

/-- The `status` field of the `CrisisStatus` interface in
`gateway/frontend/src/api/orbit.ts`: the union type
of the string literals idle, active, complete, error. -/
inductive CrisisStatusValue where
  | idle
  | active
  | complete
  | error
  deriving DecidableEq, Repr, Fintype

/-- String carried by each `CrisisStatus.status` literal. -/
def CrisisStatusValue.str : CrisisStatusValue → String
  | .idle => "idle"
  | .active => "active"
  | .complete => "complete"
  | .error => "error"

/-- The `status` field of the `Agent` interface in
`gateway/frontend/src/data/mockData.ts`: the union type of the string
literals idle, active, complete, error — this is the per-agent progress
vocabulary the dashboard casts `agent_progress` values into. -/
inductive AgentStatusValue where
  | idle
  | active
  | complete
  | error
  deriving DecidableEq, Repr, Fintype

/-- String carried by each `Agent.status` literal. -/
def AgentStatusValue.str : AgentStatusValue → String
  | .idle => "idle"
  | .active => "active"
  | .complete => "complete"
  | .error => "error"

/-- The per-agent progress lookup in `App.tsx`
(`const agentStatus = progress[agent.id] || 'idle'`): a missing entry in
the `agent_progress` map falls back to the string idle. -/
def agentProgressValue (progress : List (String × String)) (agentId : String) : String :=
  match progress.lookup agentId with
  | some v => v
  | none => "idle"

/-- Modelled from the spec: the trigger rule of an `AgentNode` — the
repository ships no orchestrator code, only its description — either
`OnAny(topics)` or `OnAll(topics)`. -/
inductive TriggerRule (τ : Type) where
  | onAny : List τ → TriggerRule τ
  | onAll : List τ → TriggerRule τ
  deriving DecidableEq, Repr

/-- Modelled from the spec: an `AgentNode` of the Dependency Graph —
identifier, trigger-topic set, published topics, trigger rule. -/
structure AgentNode (α τ : Type) where
  id : α
  triggers : List τ
  publishes : List τ
  rule : TriggerRule τ
  deriving DecidableEq, Repr

/-- Modelled from the spec: the Dependency Graph, a static list of
agent nodes built once from configuration. -/
structure DepGraph (α τ : Type) where
  agents : List (AgentNode α τ)
  deriving DecidableEq, Repr

/-- Modelled from the spec: per-agent dispatch state kept by the Crisis
Instance Tracker (`pending`, `dispatched`, `complete`, `failed`). -/
inductive DispatchState where
  | pending
  | dispatched
  | complete
  | failed
  deriving DecidableEq, Repr

/-- Modelled from the spec: a `CrisisInstance` — topic-to-payload map,
agent-to-dispatch-state map, aggregate result object, plus a tally of
how many times each agent has ever been dispatched (the observable the
no-double-dispatch properties are about). -/
structure CrisisInstance (α τ : Type) where
  received : τ → Option String
  states : α → DispatchState
  aggregate : α → Option String
  dispatchTally : α → Nat

/-- Modelled from the spec: the fresh instance created when an
initiating event arrives — nothing received, every agent pending. -/
def initialInstance {α τ : Type} : CrisisInstance α τ :=
  ⟨fun _ => none, fun _ => .pending, fun _ => none, fun _ => 0⟩

/-- Evaluate a trigger rule against the set of received topics. -/
def ruleSatisfied {τ : Type} (recvd : τ → Bool) : TriggerRule τ → Bool
  | .onAny ts => ts.any recvd
  | .onAll ts => ts.all recvd

/-- Modelled from the spec: `eligibleAgents(instance, newTopic)` — each
node whose trigger set contains the new topic and whose rule is now
fully satisfied by the received-topics set, excluding agents already in
`dispatched` or `complete` state. -/
def eligibleAgents {α τ : Type} [DecidableEq α] [DecidableEq τ]
    (g : DepGraph α τ) (inst : CrisisInstance α τ) (newTopic : τ) : List α :=
  (g.agents.filter fun n =>
    decide (newTopic ∈ n.triggers) &&
    ruleSatisfied (fun t => (inst.received t).isSome) n.rule &&
    !(decide (inst.states n.id = .dispatched) ||
      decide (inst.states n.id = .complete))).map AgentNode.id

/-- Modelled from the spec: `markDispatched` — move the agent to the
`dispatched` state, counting the dispatch. -/
def markDispatched {α τ : Type} [DecidableEq α]
    (inst : CrisisInstance α τ) (a : α) : CrisisInstance α τ :=
  { inst with
    states := fun x => if x = a then .dispatched else inst.states x,
    dispatchTally := fun x => if x = a then inst.dispatchTally x + 1 else inst.dispatchTally x }

/-- Dispatch every agent of the list. -/
def dispatchAll {α τ : Type} [DecidableEq α]
    (inst : CrisisInstance α τ) (as : List α) : CrisisInstance α τ :=
  as.foldl markDispatched inst

/-- Dispatch the agents made eligible by a newly recorded topic. -/
def dispatchEligible {α τ : Type} [DecidableEq α] [DecidableEq τ]
    (g : DepGraph α τ) (inst : CrisisInstance α τ) (t : τ) : CrisisInstance α τ :=
  dispatchAll inst (eligibleAgents g inst t)

/-- Modelled from the spec: `recordTopic` — store the payload, marking
the topic received; a no-op if the topic is already recorded (duplicate
delivery absorbed). -/
def recordTopic {α τ : Type} [DecidableEq τ]
    (inst : CrisisInstance α τ) (t : τ) (p : String) : CrisisInstance α τ :=
  if (inst.received t).isSome then inst
  else { inst with received := fun x => if x = t then some p else inst.received x }

/-- Error vocabulary of the Crisis Instance Tracker. -/
inductive TrackerError where
  | outOfOrder
  deriving DecidableEq, Repr

/-- Modelled from the spec: `markComplete` — only an agent currently in
`dispatched` state may complete; anything else is an `OutOfOrderError`
and the tracked state is left untouched. -/
def markComplete {α τ : Type} [DecidableEq α]
    (inst : CrisisInstance α τ) (a : α) (p : String) :
    Except TrackerError (CrisisInstance α τ) :=
  if inst.states a = .dispatched then
    .ok { inst with
      states := fun x => if x = a then .complete else inst.states x,
      aggregate := fun x => if x = a then some p else inst.aggregate x }
  else .error .outOfOrder

/-- Modelled from the spec: `markFailed` — record a permanent failure. -/
def markFailed {α τ : Type} [DecidableEq α]
    (inst : CrisisInstance α τ) (a : α) : CrisisInstance α τ :=
  { inst with states := fun x => if x = a then .failed else inst.states x }

/-- A topic is dead when it has not been received and every node that
publishes it has permanently failed. -/
def topicDead {α τ : Type} [DecidableEq α] [DecidableEq τ]
    (g : DepGraph α τ) (inst : CrisisInstance α τ) (t : τ) : Bool :=
  (inst.received t).isNone &&
  (g.agents.filter fun n => decide (t ∈ n.publishes)).all
    (fun n => decide (inst.states n.id = .failed))

/-- A trigger rule is permanently blocked when it can never become
satisfied: an `OnAll` rule with some dead topic, or an `OnAny` rule all
of whose topics are dead. -/
def ruleBlocked {α τ : Type} [DecidableEq α] [DecidableEq τ]
    (g : DepGraph α τ) (inst : CrisisInstance α τ) : TriggerRule τ → Bool
  | .onAll ts => ts.any (topicDead g inst)
  | .onAny ts => ts.all (topicDead g inst)

/-- One sweep of blocked-status propagation: every pending agent whose
rule is permanently blocked is marked failed. -/
def blockStep {α τ : Type} [DecidableEq α] [DecidableEq τ]
    (g : DepGraph α τ) (inst : CrisisInstance α τ) : CrisisInstance α τ :=
  { inst with states := fun x =>
      match g.agents.find? (fun n => decide (n.id = x)) with
      | some n =>
        if inst.states x = .pending && ruleBlocked g inst n.rule then .failed
        else inst.states x
      | none => inst.states x }

/-- Modelled from the spec: transitive propagation of `blocked` status
to the dependents of a permanently failed agent ("rather than waiting
indefinitely"), iterated once per agent so the marking reaches a
fixpoint. -/
def propagateBlocked {α τ : Type} [DecidableEq α] [DecidableEq τ]
    (g : DepGraph α τ) : Nat → CrisisInstance α τ → CrisisInstance α τ
  | 0, inst => inst
  | k + 1, inst => propagateBlocked g k (blockStep g inst)

/-- Bus events consumed by the orchestrator control loop: the external
initiating event, an agent-completion event carrying the topic the agent
publishes, and an agent-failure event. -/
inductive OrbitEvent (α τ : Type) where
  | initiating : τ → String → OrbitEvent α τ
  | completion : α → τ → String → OrbitEvent α τ
  | failure : α → OrbitEvent α τ

/-- Modelled from the spec: one transition of the Orchestrator control
loop. An initiating event records its topic and dispatches the newly
eligible agents; a completion event marks the agent complete (rejected
as out-of-order, leaving the instance unchanged, if the agent is not
`dispatched`), records the published topic, and dispatches the newly
eligible agents; a failure event marks the agent failed and propagates
blocked status. -/
def stepEvent {α τ : Type} [DecidableEq α] [DecidableEq τ]
    (g : DepGraph α τ) (inst : CrisisInstance α τ) : OrbitEvent α τ → CrisisInstance α τ
  | .initiating t p => dispatchEligible g (recordTopic inst t p) t
  | .completion a t p =>
    match markComplete inst a p with
    | .ok i => dispatchEligible g (recordTopic i t p) t
    | .error _ => inst
  | .failure a =>
    if inst.states a = .dispatched then
      propagateBlocked g (g.agents.length + 1) (markFailed inst a)
    else inst

/-- Feed a list of bus events through the orchestrator. -/
def runEvents {α τ : Type} [DecidableEq α] [DecidableEq τ]
    (g : DepGraph α τ) (inst : CrisisInstance α τ)
    (es : List (OrbitEvent α τ)) : CrisisInstance α τ :=
  es.foldl (stepEvent g) inst

/-- Modelled from the spec: `isTerminal` — no agent node remains outside
the `complete`/`failed` states. -/
def isTerminal {α τ : Type} [DecidableEq α] [DecidableEq τ]
    (g : DepGraph α τ) (inst : CrisisInstance α τ) : Bool :=
  g.agents.all fun n =>
    decide (inst.states n.id = .complete) || decide (inst.states n.id = .failed)

/-- Crisis phase reported by the status query. -/
inductive CrisisPhase where
  | idle
  | active
  | complete
  | error
  deriving DecidableEq, Repr

/-- Modelled from the spec: instance status for the status query — a
terminal instance with a permanently failed (blocked) agent surfaces as
`error` with whatever aggregate was assembled; a terminal instance with
every agent complete is `complete`; otherwise the crisis is active. -/
def statusOf {α τ : Type} [DecidableEq α] [DecidableEq τ]
    (g : DepGraph α τ) (inst : CrisisInstance α τ) : CrisisPhase :=
  if isTerminal g inst then
    if g.agents.any (fun n => decide (inst.states n.id = .failed)) then .error
    else .complete
  else .active

/-- The six agents of the PRD's agent catalogue (the initiating
Ear-to-the-Ground agent is the external trigger, not a graph node). -/
inductive OrbitAgentId where
  | fact_checker
  | sentiment_analyst
  | risk_score
  | legal_counsel
  | press_secretary
  deriving DecidableEq, Repr, Fintype

/-- The SLIM topics of the PRD's agent catalogue. -/
inductive OrbitTopic where
  | crisis_detected
  | fact_complete
  | sentiment_complete
  | risk_complete
  | legal_complete
  | response_ready
  deriving DecidableEq, Repr, Fintype

/-- The dependency graph from the PRD's agent catalogue and the
`AGENT_SPECIFICATIONS.md` dependency diagram: crisis.detected fans out
to the fact checker and the sentiment analyst; the risk scorer requires
both fact.complete and sentiment.complete; legal counsel requires
fact.complete; the press secretary requires both risk.complete and
legal.complete. -/
def orbitGraph : DepGraph OrbitAgentId OrbitTopic :=
  ⟨[⟨.fact_checker, [.crisis_detected], [.fact_complete], .onAny [.crisis_detected]⟩,
    ⟨.sentiment_analyst, [.crisis_detected], [.sentiment_complete], .onAny [.crisis_detected]⟩,
    ⟨.risk_score, [.fact_complete, .sentiment_complete], [.risk_complete],
      .onAll [.fact_complete, .sentiment_complete]⟩,
    ⟨.legal_counsel, [.fact_complete], [.legal_complete], .onAny [.fact_complete]⟩,
    ⟨.press_secretary, [.risk_complete, .legal_complete], [.response_ready],
      .onAll [.risk_complete, .legal_complete]⟩]⟩

/-- The event feed of the concrete scenario: crisis.detected, then the
completions fact.complete, legal.complete, sentiment.complete,
risk.complete in that order. -/
def c4Events : List (OrbitEvent OrbitAgentId OrbitTopic) :=
  [.initiating .crisis_detected "crisis_payload",
   .completion .fact_checker .fact_complete "fact_result",
   .completion .legal_counsel .legal_complete "legal_result",
   .completion .sentiment_analyst .sentiment_complete "sentiment_result",
   .completion .risk_score .risk_complete "risk_result"]

/-- Instance state after the first four scenario events (before
risk.complete is recorded). -/
def c4Pre : CrisisInstance OrbitAgentId OrbitTopic :=
  runEvents orbitGraph initialInstance (c4Events.take 4)

/-- Instance state after all five scenario events. -/
def c4Mid : CrisisInstance OrbitAgentId OrbitTopic :=
  runEvents orbitGraph initialInstance c4Events

/-- Final instance state: the press secretary, dispatched by the fifth
event, eventually completes and publishes response.ready. -/
def c4Final : CrisisInstance OrbitAgentId OrbitTopic :=
  stepEvent orbitGraph c4Mid (.completion .press_secretary .response_ready "press_result")

/-- Terminal phases of a crisis instance as used by the submission
check: complete and error are terminal, an active crisis is not. -/
def terminalPhase : CrisisPhase → Bool
  | .complete => true
  | .error => true
  | .idle => false
  | .active => false

/-- Error vocabulary of the trigger contract. -/
inductive SubmitError where
  | collision
  deriving DecidableEq, Repr

/-- Modelled from the spec: the trigger contract
`submit(initiating_payload) -> crisis_id` — the orchestrator (the
FastAPI gateway backend is not part of the checked sources) rejects a
submission whose crisis id collides with a non-terminal existing
instance, and otherwise registers the new active instance and returns
its crisis id. -/
def submitCrisis (instances : List (String × CrisisPhase)) (cid : String) :
    Except SubmitError (List (String × CrisisPhase) × String) :=
  if instances.any (fun q => decide (q.1 = cid) && !terminalPhase q.2) then
    .error .collision
  else .ok ((cid, .active) :: instances, cid)

/-- The trigger-button gating of `App.tsx`: the TRIGGER CRISIS control
is rendered only when the crisis status is idle, error or complete. -/
def showTriggerButton (s : CrisisStatusValue) : Bool :=
  decide (s = .idle) || decide (s = .error) || decide (s = .complete)

/-- Modelled from the spec: resolution of one dispatched agent by the
Agent Invoker — a successful agent completes (its result is recorded,
its published topics recorded, the newly eligible agents dispatched); a
permanently failing agent is marked failed and blocked status is
propagated to its transitive dependents. -/
def resolveAgent {α τ : Type} [DecidableEq α] [DecidableEq τ]
    (g : DepGraph α τ) (outcome : α → Bool) (payload : α → String)
    (inst : CrisisInstance α τ) (n : AgentNode α τ) : CrisisInstance α τ :=
  if inst.states n.id = .dispatched then
    if outcome n.id then
      match markComplete inst n.id (payload n.id) with
      | .ok i =>
        n.publishes.foldl (fun acc t => dispatchEligible g (recordTopic acc t (payload n.id)) t) i
      | .error _ => inst
    else propagateBlocked g (g.agents.length + 1) (markFailed inst n.id)
  else inst

/-- One pass of the closed control loop over all agents. -/
def systemRound {α τ : Type} [DecidableEq α] [DecidableEq τ]
    (g : DepGraph α τ) (outcome : α → Bool) (payload : α → String)
    (inst : CrisisInstance α τ) : CrisisInstance α τ :=
  g.agents.foldl (resolveAgent g outcome payload) inst

/-- Iterate the control loop a bounded number of passes (the graph is
finite and acyclic, so one pass per agent reaches the fixpoint). -/
def runRounds {α τ : Type} [DecidableEq α] [DecidableEq τ]
    (g : DepGraph α τ) (outcome : α → Bool) (payload : α → String) :
    Nat → CrisisInstance α τ → CrisisInstance α τ
  | 0, inst => inst
  | k + 1, inst => runRounds g outcome payload k (systemRound g outcome payload inst)

/-- Canonical result payload of each agent. -/
def payloadForAgent : OrbitAgentId → String
  | .fact_checker => "fact_result"
  | .sentiment_analyst => "sentiment_result"
  | .risk_score => "risk_result"
  | .legal_counsel => "legal_result"
  | .press_secretary => "press_result"

/-- Closed-loop run of the six-agent system from the initiating event
under a fixed per-agent outcome (true: the agent completes when
dispatched; false: it permanently fails). -/
def c9Run (outcome : OrbitAgentId → Bool) : CrisisInstance OrbitAgentId OrbitTopic :=
  runRounds orbitGraph outcome payloadForAgent (orbitGraph.agents.length + 1)
    (stepEvent orbitGraph initialInstance (.initiating .crisis_detected "crisis_payload"))

/-- Agent `a` is required via an `OnAll` rule by agent `c`: some topic
of `c`'s `OnAll` trigger set is published by `a`. -/
def requiredOnAll {α τ : Type} [DecidableEq α] [DecidableEq τ]
    (g : DepGraph α τ) (a c : α) : Bool :=
  g.agents.any fun nc =>
    decide (nc.id = c) &&
    (match nc.rule with
     | .onAll ts => ts.any fun t => g.agents.any fun na =>
        decide (na.id = a) && decide (t ∈ na.publishes)
     | .onAny _ => false)

/-- Agent `a` directly feeds agent `b`: some topic `a` publishes is
among `b`'s trigger topics. -/
def directlyFeeds {α τ : Type} [DecidableEq α] [DecidableEq τ]
    (g : DepGraph α τ) (a b : α) : Bool :=
  g.agents.any fun na =>
    decide (na.id = a) && (g.agents.any fun nb =>
      decide (nb.id = b) && na.publishes.any fun t => decide (t ∈ nb.triggers))

/-- Fuel-bounded transitive dependency. -/
def dependsOnAux {α τ : Type} [DecidableEq α] [DecidableEq τ]
    (g : DepGraph α τ) : Nat → α → α → Bool
  | 0, _, _ => false
  | k + 1, b, a =>
    directlyFeeds g a b ||
    g.agents.any fun nm => directlyFeeds g nm.id b && dependsOnAux g k nm.id a

/-- Agent `b` (transitively) depends on agent `a`'s output. -/
def dependsOn {α τ : Type} [DecidableEq α] [DecidableEq τ]
    (g : DepGraph α τ) (b a : α) : Bool :=
  dependsOnAux g g.agents.length b a

/-- Instance with only crisis.detected recorded, used to exercise the
eligibility properties on the concrete graph. -/
def c3Inst : CrisisInstance OrbitAgentId OrbitTopic :=
  recordTopic initialInstance .crisis_detected "crisis_payload"

theorem riskProcess_snd_eq_ruleFires (es : List AgentEvent) :
    ∀ (f s : Bool) (fd sd : Option AgentEvent),
      (riskProcess ⟨f, s, fd, sd⟩ es).2 = ruleFires f s (es.map kindOf) := by
  induction es with
  | nil => intro f s fd sd; simp [riskProcess, ruleFires]
  | cons e es ih =>
    intro f s fd sd
    by_cases hf : e.event_type = "fact_check_complete"
    · cases s with
      | true =>
        simp [riskProcess, riskHandleEvent, riskUpdate, kindOf, ruleFires, hf,
          riskInitState, ih]
      | false =>
        simp [riskProcess, riskHandleEvent, riskUpdate, kindOf, ruleFires, hf, ih]
    · by_cases hs : e.event_type = "sentiment_analysis_complete"
      · cases f with
        | true =>
          simp [riskProcess, riskHandleEvent, riskUpdate, kindOf, ruleFires, hf, hs,
            riskInitState, ih]
        | false =>
          simp [riskProcess, riskHandleEvent, riskUpdate, kindOf, ruleFires, hf, hs, ih]
      · cases f with
        | true =>
          cases s with
          | true =>
            simp [riskProcess, riskHandleEvent, riskUpdate, kindOf, ruleFires, hf, hs,
              riskInitState, ih]
          | false =>
            simp [riskProcess, riskHandleEvent, riskUpdate, kindOf, ruleFires, hf, hs, ih]
        | false =>
          simp [riskProcess, riskHandleEvent, riskUpdate, kindOf, ruleFires, hf, hs, ih]

theorem riskDispatches_eq_ruleFires (es : List AgentEvent) :
    riskDispatches es = ruleFires false false (es.map kindOf) := by
  have h := riskProcess_snd_eq_ruleFires es false false none none
  simpa [riskDispatches, riskInitState] using h

theorem ruleFires_count_zero (ks : List DepKind) (hf : DepKind.factKind ∉ ks)
    (hs : DepKind.sentimentKind ∉ ks) :
    (ruleFires false false ks).count true = 0 := by
  induction ks with
  | nil => simp [ruleFires]
  | cons k ks ih =>
    have hk1 : k ≠ DepKind.factKind := fun h => hf (by simp [h])
    have hk2 : k ≠ DepKind.sentimentKind := fun h => hs (by simp [h])
    have hf' : DepKind.factKind ∉ ks := fun h => hf (List.mem_cons_of_mem _ h)
    have hs' : DepKind.sentimentKind ∉ ks := fun h => hs (List.mem_cons_of_mem _ h)
    simp [ruleFires, hk1, hk2, ih hf' hs']

theorem ruleFires_count_pos (ks : List DepKind) :
    ∀ f s : Bool,
      1 ≤ (ruleFires f s ks).count true ↔
        (ks ≠ [] ∧ (f = true ∨ DepKind.factKind ∈ ks) ∧
          (s = true ∨ DepKind.sentimentKind ∈ ks)) := by
  induction ks with
  | nil => intro f s; simp [ruleFires]
  | cons k ks ih =>
    intro f s
    cases k <;> cases f <;> cases s <;>
      simp [ruleFires, List.count_cons, ih] <;>
      first
        | exact fun h => List.ne_nil_of_mem h
        | exact fun h _ => List.ne_nil_of_mem h

theorem ruleFires_count_one (ks : List DepKind) :
    ∀ f s : Bool, (f && s) = false →
      ks.count DepKind.factKind = (if f then 0 else 1) →
      ks.count DepKind.sentimentKind = (if s then 0 else 1) →
      (ruleFires f s ks).count true = 1 := by
  induction ks with
  | nil =>
    intro f s hfs hf hs
    cases f <;> cases s <;> simp_all
  | cons k ks ih =>
    intro f s hfs hf hs
    cases k with
    | factKind =>
      cases f with
      | true => simp [List.count_cons] at hf
      | false =>
        have hf0 : ks.count DepKind.factKind = 0 := by
          simp [List.count_cons] at hf
          omega
        cases s with
        | true =>
          have hs0 : ks.count DepKind.sentimentKind = 0 := by
            simpa using hs
          have hz := ruleFires_count_zero ks
            (List.count_eq_zero.1 hf0) (List.count_eq_zero.1 hs0)
          simp [ruleFires, List.count_cons, hz]
        | false =>
          have hs1 : ks.count DepKind.sentimentKind = 1 := by
            simp [List.count_cons] at hs
            omega
          have := ih true false (by simp) (by simpa using hf0) (by simpa using hs1)
          simpa [ruleFires, List.count_cons] using this
    | sentimentKind =>
      cases s with
      | true => simp [List.count_cons] at hs
      | false =>
        have hs0 : ks.count DepKind.sentimentKind = 0 := by
          simp [List.count_cons] at hs
          omega
        cases f with
        | true =>
          have hf0 : ks.count DepKind.factKind = 0 := by
            simpa using hf
          have hz := ruleFires_count_zero ks
            (List.count_eq_zero.1 hf0) (List.count_eq_zero.1 hs0)
          simp [ruleFires, List.count_cons, hz]
        | false =>
          have hf1 : ks.count DepKind.factKind = 1 := by
            simp [List.count_cons] at hf
            omega
          have := ih false true (by simp) (by simpa using hf1) (by simpa using hs0)
          simpa [ruleFires, List.count_cons] using this
    | otherKind =>
      have hf' : ks.count DepKind.factKind = (if f then 0 else 1) := by
        simp [List.count_cons] at hf
        simpa using hf
      have hs' : ks.count DepKind.sentimentKind = (if s then 0 else 1) := by
        simp [List.count_cons] at hs
        simpa using hs
      have hnf : ¬(f = true ∧ s = true) := by
        intro hc
        rw [hc.1, hc.2] at hfs
        simp at hfs
      have := ih f s hfs hf' hs'
      simpa [ruleFires, List.count_cons, hnf] using this

/-- Claim C10: the Risk Score agent's dependency-wait state is a single
record not indexed by crisis id, reset to all-unsatisfied after each
dispatch; its trigger fires exactly per the OnAll-since-last-dispatch
rule over event kinds alone, so the two completing events need not carry
the same crisis id. -/
theorem riskScore_state_not_crisis_indexed :
    (∀ es : List AgentEvent,
      riskDispatches es = ruleFires false false (es.map kindOf)) ∧
    (∀ es es' : List AgentEvent, es.map kindOf = es'.map kindOf →
      riskDispatches es = riskDispatches es') ∧
    (∀ (s : RiskScoreState) (e : AgentEvent),
      (riskHandleEvent s e).2 = true → (riskHandleEvent s e).1 = riskInitState) ∧
    riskDispatches [factEvt "crisis_A", sentimentEvt "crisis_B"] = [false, true] := by
  refine ⟨riskDispatches_eq_ruleFires, ?_, ?_, by decide⟩
  · intro es es' h
    rw [riskDispatches_eq_ruleFires, riskDispatches_eq_ruleFires, h]
  · intro s e h
    by_cases hc : ((riskUpdate s e).waiting_fact_check &&
        (riskUpdate s e).waiting_sentiment) = true
    · simp [riskHandleEvent, hc]
    · simp [riskHandleEvent, hc] at h

theorem riskScore_state_not_crisis_indexed_witness :
    riskDispatches [factEvt "crisis_A", sentimentEvt "crisis_B"] =
      riskDispatches [factEvt "crisis_B", sentimentEvt "crisis_A"] :=
  riskScore_state_not_crisis_indexed.2.1 _ _ (by decide)

/-- Claim C1 counterexample: delivering `fact.complete` tagged with
crisis A and `sentiment.complete` tagged with crisis B makes the agent
dispatch once, although neither crisis id has both topics recorded. -/
theorem fanIn_counterexample :
    riskCount [factEvt "crisis_A", sentimentEvt "crisis_B"] = 1 ∧
    "sentiment_analysis_complete" ∉
      recordedTypesFor [factEvt "crisis_A", sentimentEvt "crisis_B"] "crisis_A" ∧
    "fact_check_complete" ∉
      recordedTypesFor [factEvt "crisis_A", sentimentEvt "crisis_B"] "crisis_B" := by
  decide

/-- Claim C1 (amended): for traces all of whose events carry the same
crisis id, the OnAll fan-in is correct: the agent dispatches iff both a
`fact.complete` and a `sentiment.complete` event have been received, in
either arrival order, and one completion of each kind triggers exactly
one dispatch. -/
theorem fanIn_single_crisis (c : String) (es : List AgentEvent)
    (_hall : ∀ e ∈ es, e.crisis_id = c) :
    (1 ≤ riskCount es ↔
      (DepKind.factKind ∈ es.map kindOf ∧ DepKind.sentimentKind ∈ es.map kindOf)) ∧
    (((es.map kindOf).count DepKind.factKind = 1 ∧
      (es.map kindOf).count DepKind.sentimentKind = 1) → riskCount es = 1) := by
  constructor
  · rw [riskCount, riskDispatches_eq_ruleFires, ruleFires_count_pos]
    constructor
    · rintro ⟨_, h1, h2⟩
      exact ⟨h1.resolve_left (by simp), h2.resolve_left (by simp)⟩
    · rintro ⟨h1, h2⟩
      exact ⟨List.ne_nil_of_mem h1, Or.inr h1, Or.inr h2⟩
  · rintro ⟨h1, h2⟩
    rw [riskCount, riskDispatches_eq_ruleFires]
    exact ruleFires_count_one _ false false (by simp) (by simpa using h1)
      (by simpa using h2)

theorem fanIn_single_crisis_witness :
    riskCount [sentimentEvt "crisis_A", factEvt "crisis_A"] = 1 :=
  (fanIn_single_crisis "crisis_A" [sentimentEvt "crisis_A", factEvt "crisis_A"]
    (by decide)).2 (by decide)

/-- Claim C2 counterexample: redelivering the identical pair of
completion events (same crisis id, same payloads) produces a second
dispatch, and the duplicate `fact.complete` delivered right after a
dispatch changes the tracked state again instead of being absorbed. -/
theorem duplicateDelivery_counterexample :
    riskCount [sentimentEvt "c1", factEvt "c1", factEvt "c1", sentimentEvt "c1"] = 2 ∧
    riskFinal [sentimentEvt "c1", factEvt "c1", factEvt "c1"] ≠
      riskFinal [sentimentEvt "c1", factEvt "c1"] := by
  decide

/-- Claim C2 (amended): a duplicate delivery of the same event is a
no-op — tracked state unchanged and no dispatch — provided the first
delivery did not itself trigger a dispatch; when the first delivery
dispatched, the wait state was reset, so the duplicate re-arms its flag
and can contribute to a further dispatch. -/
theorem duplicateDelivery_idempotent_before_dispatch
    (s : RiskScoreState) (e : AgentEvent)
    (h : (riskHandleEvent s e).2 = false) :
    riskHandleEvent (riskHandleEvent s e).1 e = ((riskHandleEvent s e).1, false) := by
  have hu : riskUpdate (riskUpdate s e) e = riskUpdate s e := by
    unfold riskUpdate
    by_cases h1 : e.event_type = "fact_check_complete"
    · simp [h1]
    · by_cases h2 : e.event_type = "sentiment_analysis_complete" <;> simp [h1, h2]
  have hcond : ((riskUpdate s e).waiting_fact_check &&
      (riskUpdate s e).waiting_sentiment) = false := by
    by_cases hc : ((riskUpdate s e).waiting_fact_check &&
        (riskUpdate s e).waiting_sentiment) = true
    · simp [riskHandleEvent, hc] at h
    · simpa using hc
  have hfst : (riskHandleEvent s e).1 = riskUpdate s e := by
    simp [riskHandleEvent, hcond]
  rw [hfst]
  simp [riskHandleEvent, hu, hcond]

theorem duplicateDelivery_idempotent_before_dispatch_witness :
    riskHandleEvent (riskHandleEvent riskInitState (factEvt "c1")).1 (factEvt "c1") =
      ((riskHandleEvent riskInitState (factEvt "c1")).1, false) :=
  duplicateDelivery_idempotent_before_dispatch riskInitState (factEvt "c1") (by decide)

/-- Claim C5 counterexample: the status query's type admits the value
`"active"`, which is not one of the four values the claim enumerates
(`"idle"`, `"running"`, `"complete"`, `"error"`); in particular the
claimed value `"running"` is not the code's name for the in-progress
state. -/
theorem crisisStatus_counterexample :
    CrisisStatusValue.active.str = "active" ∧
    CrisisStatusValue.active.str ∉ (["idle", "running", "complete", "error"] : List String) := by
  decide

/-- Claim C5 (amended): every status value returned by the status query
is one of exactly `"idle"`, `"active"`, `"complete"`, `"error"`. -/
theorem crisisStatus_values :
    ∀ v : CrisisStatusValue,
      v.str ∈ (["idle", "active", "complete", "error"] : List String) := by
  decide

/-- Claim C6 counterexample: the value the dashboard exposes for an
agent absent from `agent_progress` is `"idle"`, which is not one of the
four values the claim enumerates (`"pending"`, `"dispatched"`,
`"complete"`, `"failed"`); the code's per-agent vocabulary does not
contain `"pending"`, `"dispatched"` or `"failed"` at all. -/
theorem agentProgress_counterexample :
    agentProgressValue [] "risk_score" = "idle" ∧
    agentProgressValue [] "risk_score" ∉
      (["pending", "dispatched", "complete", "failed"] : List String) ∧
    AgentStatusValue.active.str ∉
      (["pending", "dispatched", "complete", "failed"] : List String) := by
  decide

/-- Claim C6 (amended): the per-agent progress values the dashboard
works with are exactly `"idle"`, `"active"`, `"complete"`, `"error"`,
and an agent missing from the `agent_progress` map is shown as idle. -/
theorem agentProgress_values :
    (∀ v : AgentStatusValue,
      v.str ∈ (["idle", "active", "complete", "error"] : List String)) ∧
    (∀ agentId : String, agentProgressValue [] agentId = "idle") := by
  constructor
  · decide
  · intro agentId
    rfl

theorem dispatchAll_received {α τ : Type} [DecidableEq α]
    (as : List α) : ∀ inst : CrisisInstance α τ,
    (dispatchAll inst as).received = inst.received := by
  induction as with
  | nil => intro inst; rfl
  | cons b bs ih =>
    intro inst
    have hstep : dispatchAll inst (b :: bs) = dispatchAll (markDispatched inst b) bs := rfl
    rw [hstep, ih]
    rfl

theorem dispatchAll_states {α τ : Type} [DecidableEq α]
    (as : List α) : ∀ (inst : CrisisInstance α τ) (a : α),
    (dispatchAll inst as).states a =
      if a ∈ as then DispatchState.dispatched else inst.states a := by
  induction as with
  | nil => intro inst a; simp [dispatchAll]
  | cons b bs ih =>
    intro inst a
    have hstep : dispatchAll inst (b :: bs) = dispatchAll (markDispatched inst b) bs := rfl
    rw [hstep, ih]
    by_cases hab : a ∈ bs
    · simp [hab]
    · by_cases hab2 : a = b
      · simp [hab, hab2, markDispatched]
      · simp [hab, hab2, markDispatched]

/-- Claim C3: `eligibleAgents` never returns an agent already in
`dispatched` or `complete` state; it depends only on the received-topic
and agent-state components of the instance (so evaluating it twice
against the same state yields the same result); and after the returned
agents are dispatched, re-evaluating it against the same topic returns
the empty list — this is what makes duplicate deliveries harmless. -/
theorem eligibleAgents_no_double_dispatch {α τ : Type} [DecidableEq α] [DecidableEq τ]
    (g : DepGraph α τ) (inst inst' : CrisisInstance α τ) (t : τ) (a : α) :
    (a ∈ eligibleAgents g inst t →
      inst.states a ≠ .dispatched ∧ inst.states a ≠ .complete) ∧
    (inst'.received = inst.received → inst'.states = inst.states →
      eligibleAgents g inst' t = eligibleAgents g inst t) ∧
    eligibleAgents g (dispatchAll inst (eligibleAgents g inst t)) t = [] := by
  refine ⟨?_, ?_, ?_⟩
  · intro h
    simp only [eligibleAgents, List.mem_map] at h
    obtain ⟨n, hn, hid⟩ := h
    rw [List.mem_filter] at hn
    obtain ⟨hmem, hp⟩ := hn
    simp only [Bool.and_eq_true, Bool.not_eq_true', Bool.or_eq_false_iff,
      decide_eq_true_eq, decide_eq_false_iff_not] at hp
    obtain ⟨⟨htrig, hsat⟩, hnd, hnc⟩ := hp
    subst hid
    exact ⟨hnd, hnc⟩
  · intro h1 h2
    simp only [eligibleAgents]
    rw [h1, h2]
  · rw [eligibleAgents, List.map_eq_nil_iff, List.filter_eq_nil_iff]
    intro n hmem hp
    simp only [Bool.and_eq_true, Bool.not_eq_true', Bool.or_eq_false_iff,
      decide_eq_true_eq, decide_eq_false_iff_not] at hp
    obtain ⟨⟨htrig, hsat⟩, hnd, hnc⟩ := hp
    rw [dispatchAll_received] at hsat
    rw [dispatchAll_states] at hnd hnc
    by_cases hin : n.id ∈ eligibleAgents g inst t
    · rw [if_pos hin] at hnd
      exact hnd rfl
    · rw [if_neg hin] at hnd hnc
      apply hin
      simp only [eligibleAgents, List.mem_map]
      refine ⟨n, ?_, rfl⟩
      rw [List.mem_filter]
      refine ⟨hmem, ?_⟩
      simp [htrig, hsat, hnd, hnc]

theorem eligibleAgents_no_double_dispatch_witness :
    (c3Inst.states OrbitAgentId.fact_checker ≠ .dispatched ∧
     c3Inst.states OrbitAgentId.fact_checker ≠ .complete) ∧
    eligibleAgents orbitGraph c3Inst OrbitTopic.crisis_detected =
      eligibleAgents orbitGraph c3Inst OrbitTopic.crisis_detected ∧
    eligibleAgents orbitGraph
      (dispatchAll c3Inst (eligibleAgents orbitGraph c3Inst OrbitTopic.crisis_detected))
      OrbitTopic.crisis_detected = [] :=
  ⟨(eligibleAgents_no_double_dispatch orbitGraph c3Inst c3Inst OrbitTopic.crisis_detected
      OrbitAgentId.fact_checker).1 (by decide),
   (eligibleAgents_no_double_dispatch orbitGraph c3Inst c3Inst OrbitTopic.crisis_detected
      OrbitAgentId.fact_checker).2.1 rfl rfl,
   (eligibleAgents_no_double_dispatch orbitGraph c3Inst c3Inst OrbitTopic.crisis_detected
      OrbitAgentId.fact_checker).2.2⟩

/-- Claim C8: `markComplete` for an agent that is not currently in
`dispatched` state is rejected as an out-of-order error, and the whole
orchestrator step for such a completion event leaves the tracked
instance unchanged. -/
theorem markComplete_out_of_order {α τ : Type} [DecidableEq α] [DecidableEq τ]
    (g : DepGraph α τ) (inst : CrisisInstance α τ) (a : α) (t : τ) (p : String)
    (h : inst.states a ≠ .dispatched) :
    markComplete inst a p = .error .outOfOrder ∧
    stepEvent g inst (.completion a t p) = inst := by
  have hm : markComplete inst a p = Except.error TrackerError.outOfOrder := by
    rw [markComplete, if_neg h]
  exact ⟨hm, by simp [stepEvent, hm]⟩

theorem markComplete_out_of_order_witness :
    markComplete (@initialInstance OrbitAgentId OrbitTopic) OrbitAgentId.risk_score
      "risk_result" = .error .outOfOrder ∧
    stepEvent orbitGraph initialInstance
      (.completion OrbitAgentId.risk_score OrbitTopic.risk_complete "risk_result") =
      initialInstance :=
  markComplete_out_of_order orbitGraph initialInstance OrbitAgentId.risk_score
    OrbitTopic.risk_complete "risk_result" (by decide)

/-- Claim C4: feeding [crisis.detected, fact.complete, legal.complete,
sentiment.complete, risk.complete] dispatches the press secretary
exactly once and only at the event that records risk.complete, and the
final aggregate — read once the dispatched press secretary itself
completes — contains results from all five downstream agents, at which
point the instance is terminal and complete. -/
theorem scenario_press_secretary :
    c4Pre.dispatchTally OrbitAgentId.press_secretary = 0 ∧
    c4Mid.dispatchTally OrbitAgentId.press_secretary = 1 ∧
    (∀ a : OrbitAgentId, (c4Final.aggregate a).isSome) ∧
    isTerminal orbitGraph c4Final = true ∧
    statusOf orbitGraph c4Final = .complete := by
  decide

/-- Claim C7: a submission whose crisis id collides with a non-terminal
existing instance is rejected; one whose id collides with no
non-terminal instance is accepted and returns the crisis id; and the
dashboard offers the trigger control exactly when no crisis is
active. -/
theorem submit_collision (instances : List (String × CrisisPhase)) (cid : String) :
    ((∃ ph, (cid, ph) ∈ instances ∧ terminalPhase ph = false) →
      submitCrisis instances cid = .error .collision) ∧
    ((∀ ph, (cid, ph) ∈ instances → terminalPhase ph = true) →
      ∃ st, submitCrisis instances cid = .ok (st, cid)) ∧
    (∀ s : CrisisStatusValue, showTriggerButton s = true ↔ s ≠ .active) := by
  refine ⟨?_, ?_, by decide⟩
  · rintro ⟨ph, hmem, hterm⟩
    have hany : instances.any (fun q => decide (q.1 = cid) && !terminalPhase q.2) = true := by
      rw [List.any_eq_true]
      exact ⟨(cid, ph), hmem, by simp [hterm]⟩
    simp [submitCrisis, hany]
  · intro hall
    have hany : instances.any (fun q => decide (q.1 = cid) && !terminalPhase q.2) = false := by
      rw [List.any_eq_false]
      intro q hq hq2
      simp only [Bool.and_eq_true, decide_eq_true_eq, Bool.not_eq_true'] at hq2
      obtain ⟨h1, h2⟩ := hq2
      have hterm : terminalPhase q.2 = true := hall q.2 (by rw [← h1]; simpa using hq)
      rw [hterm] at h2
      exact absurd h2 (by decide)
    refine ⟨(cid, CrisisPhase.active) :: instances, ?_⟩
    simp [submitCrisis, hany]

theorem submit_collision_witness :
    submitCrisis [("c1", CrisisPhase.active)] "c1" = .error .collision :=
  (submit_collision [("c1", CrisisPhase.active)] "c1").1
    ⟨CrisisPhase.active, by decide, by decide⟩

/-- Claim C9: whenever an agent A that a fan-in agent C requires via
`OnAll` permanently fails (all other agents behaving normally), C is
never dispatched, the closed-loop run converges to a terminal instance
reported as status error whose aggregate lacks C's result (a partial
aggregate, not an eternally pending instance), and some sibling agent
that does not depend on A still completes with its result in the
aggregate. -/
theorem partialFailure_propagation :
    ∀ (outcome : OrbitAgentId → Bool) (A C : OrbitAgentId),
      requiredOnAll orbitGraph A C = true →
      outcome A = false →
      (∀ B, B ≠ A → outcome B = true) →
      (c9Run outcome).dispatchTally C = 0 ∧
      isTerminal orbitGraph (c9Run outcome) = true ∧
      statusOf orbitGraph (c9Run outcome) = .error ∧
      (c9Run outcome).aggregate C = none ∧
      (∃ B, B ≠ A ∧ dependsOn orbitGraph B A = false ∧
        (c9Run outcome).states B = .complete ∧
        ((c9Run outcome).aggregate B).isSome) := by
  set_option maxRecDepth 10000 in decide

theorem partialFailure_propagation_witness :
    (c9Run fun b => decide (b ≠ OrbitAgentId.sentiment_analyst)).dispatchTally
      OrbitAgentId.risk_score = 0 ∧
    isTerminal orbitGraph (c9Run fun b => decide (b ≠ OrbitAgentId.sentiment_analyst)) = true ∧
    statusOf orbitGraph (c9Run fun b => decide (b ≠ OrbitAgentId.sentiment_analyst)) = .error ∧
    (c9Run fun b => decide (b ≠ OrbitAgentId.sentiment_analyst)).aggregate
      OrbitAgentId.risk_score = none ∧
    (∃ B, B ≠ OrbitAgentId.sentiment_analyst ∧
      dependsOn orbitGraph B OrbitAgentId.sentiment_analyst = false ∧
      (c9Run fun b => decide (b ≠ OrbitAgentId.sentiment_analyst)).states B = .complete ∧
      ((c9Run fun b => decide (b ≠ OrbitAgentId.sentiment_analyst)).aggregate B).isSome) :=
  partialFailure_propagation (fun b => decide (b ≠ OrbitAgentId.sentiment_analyst))
    OrbitAgentId.sentiment_analyst OrbitAgentId.risk_score (by decide) (by decide)
    (by intro B hB; simp [hB])
